import Mathlib

/-!
Verification of the flixmeter title-resolution engine.

The definitions below are a shallow embedding of the Python sources:
  * `src/app.py`      — `ChunkedRuntimeCalculator` (chunked streaming engine)
  * `src/motherapp.py`— same engine over local files (identical matching code)
  * `src/script.py`   — `find_runtime_enhanced` (candidate-major variant)

Python strings are modelled as `String`/`List Char`; pandas NaN cells as
`Option`; CSV files as lists of row structures; fallible file reads as
`Except String`.  The two regular expressions used by the normalizer are
modelled by explicit scanners with the exact leftmost-match semantics of
`re.sub` for these particular patterns (no backtracking can occur for them,
so the greedy scan below is equivalent).
-/

namespace Flixmeter

/-- Python whitespace class `\s` (ASCII part) as used by `re` and `str.strip`. -/
def isPySpace (c : Char) : Bool :=
  c == ' ' || c == '\t' || c == '\n' || c == '\r' || c == '\x0b' || c == '\x0c'

/-- `str.strip()` on a character list: drop whitespace from both ends. -/
def pyStripChars (l : List Char) : List Char :=
  ((l.dropWhile isPySpace).reverse.dropWhile isPySpace).reverse

/-- Python `str.strip()`. -/
def pyStrip (s : String) : String :=
  String.mk (pyStripChars s.data)

/-- Python `str.lower()` (ASCII-faithful; the repository's titles are compared
ASCII-case-insensitively). -/
def pyLower (s : String) : String :=
  String.mk (s.data.map Char.toLower)

/-- Decimal value of a digit list (most significant first). -/
def natOfDigits (l : List Char) : Nat :=
  l.foldl (fun n c => 10 * n + (c.toNat - 48)) 0

/-- Models Python `int(float(s))` for plain decimal literals: surrounding
whitespace, an optional sign, digits with an optional fractional part;
`int()` truncates toward zero, so the value is the (signed) integer part.
Scientific notation, digit underscores and `inf`/`nan` are not modelled
(they do not occur in the runtime columns); on any other input `float`
raises, modelled as `none`. -/
def pyIntFloat (s : String) : Option Int :=
  let cs := pyStripChars s.data
  let signed : Bool × List Char :=
    match cs with
    | '-' :: rest => (true, rest)
    | '+' :: rest => (false, rest)
    | _ => (false, cs)
  let digits := signed.2.takeWhile Char.isDigit
  let rest := signed.2.dropWhile Char.isDigit
  let valid : Bool :=
    match rest with
    | [] => !digits.isEmpty
    | '.' :: frac => (!digits.isEmpty || !frac.isEmpty) && frac.all Char.isDigit
    | _ => false
  if valid then
    let mag : Int := Int.ofNat (natOfDigits digits)
    some (if signed.1 then -mag else mag)
  else none

/-- The single-quote character, `'`. -/
def quoteChar : Char := Char.ofNat 39

def pyStrListGo : List String → List Char
  | [] => []
  | [s] => quoteChar :: s.data ++ [quoteChar]
  | s :: rest => quoteChar :: s.data ++ [quoteChar, ',', ' '] ++ pyStrListGo rest

/-- Python `str(list_of_str)`: `['a', 'b']` (repr quoting for titles without
quote characters, which is the form stored in `variations_tried`). -/
def pyStrList (l : List String) : String :=
  String.mk ('[' :: pyStrListGo l ++ [']'])

/-!
### The year regex `\s*[\(\[]\d{4}[\)\]]\s*` (replaced by the empty string)

For this pattern a match attempt at a position succeeds exactly when, after
greedily consuming whitespace, an opening bracket, exactly four digits, a
closing bracket and trailing whitespace follow: backtracking the greedy
`\s*` can never help because `[\(\[]` accepts no whitespace character.
-/

/-- Attempt to match the year pattern at the head of `l`; on success return
the remainder of the input after the match. -/
def matchYearAt (l : List Char) : Option (List Char) :=
  match l.dropWhile isPySpace with
  | b :: rest =>
    if b == '(' || b == '[' then
      match rest with
      | d1 :: d2 :: d3 :: d4 :: c :: rest2 =>
        if d1.isDigit && d2.isDigit && d3.isDigit && d4.isDigit
            && (c == ')' || c == ']') then
          some (rest2.dropWhile isPySpace)
        else none
      | _ => none
    else none
  | [] => none

/-- `re.sub` scan for the year pattern: try a match at each position from the
left; on a hit emit nothing and resume after the match.  Fuelled by the input
length (every match consumes at least six characters). -/
def subYearGo : Nat → List Char → List Char
  | _, [] => []
  | 0, l => l
  | fuel + 1, c :: rest =>
    match matchYearAt (c :: rest) with
    | some rem => subYearGo fuel rem
    | none => c :: subYearGo fuel rest

/-- `re.sub(r'\s*[\(\[]\d{4}[\)\]]\s*', '', s)`. -/
def subYear (s : String) : String :=
  String.mk (subYearGo s.data.length s.data)

/-!
### The season regex `:\s*Season\s+\d+\s*:` (replaced by `:`)

Again no successful backtracking exists: each greedy whitespace/digit run is
followed by a literal that accepts none of the repeated characters.
-/

/-- Attempt to match the season pattern at the head of `l`; on success return
the remainder of the input after the match (the closing colon is consumed by
the match and is re-emitted by the replacement). -/
def matchSeasonAt (l : List Char) : Option (List Char) :=
  match l with
  | ':' :: r1 =>
    match r1.dropWhile isPySpace with
    | 'S' :: 'e' :: 'a' :: 's' :: 'o' :: 'n' :: r3 =>
      match r3 with
      | w :: _ =>
        if isPySpace w then
          let r4 := r3.dropWhile isPySpace
          match r4 with
          | d :: _ =>
            if d.isDigit then
              match (r4.dropWhile Char.isDigit).dropWhile isPySpace with
              | ':' :: r7 => some r7
              | _ => none
            else none
          | [] => none
        else none
      | [] => none
    | _ => none
  | _ => none

/-- `re.sub` scan for the season pattern, emitting the replacement `:` on a
hit and resuming after the match. -/
def subSeasonGo : Nat → List Char → List Char
  | _, [] => []
  | 0, l => l
  | fuel + 1, c :: rest =>
    match matchSeasonAt (c :: rest) with
    | some rem => ':' :: subSeasonGo fuel rem
    | none => c :: subSeasonGo fuel rest

/-- `re.sub(r':\s*Season\s+\d+\s*:', ':', s)`. -/
def subSeason (s : String) : String :=
  String.mk (subSeasonGo s.data.length s.data)

/-- `clean_title_for_matching` (identical in `app.py`, `motherapp.py` and
`script.py`), on an actual string input: strip, remove bracketed 4-digit
years, collapse `: Season N :` to `:`, re-strip.  (The `pd.isna`/non-string
guard returning `""` is handled by `clean_title_for_matchingPy`.) -/
def clean_title_for_matching (title : String) : String :=
  pyStrip (subSeason (subYear (pyStrip title)))

/-- `clean_title_for_matching` including the NaN/non-string guard: a missing
value is cleaned to the empty string. -/
def clean_title_for_matchingPy (title : Option String) : String :=
  match title with
  | none => ""
  | some s => clean_title_for_matching s

/-- `n` is an initial segment of `l` (used for `str.startswith`). -/
def leadsWith : List Char → List Char → Bool
  | _, [] => true
  | [], _ :: _ => false
  | h :: t, n :: ns => (h == n) && leadsWith t ns

/-- `n` occurs contiguously inside `l`. -/
def infixChars : List Char → List Char → Bool
  | [], n => n.isEmpty
  | h :: t, n => leadsWith (h :: t) n || infixChars t n

/-- Python `str.split(sep)` for a single-character separator (keeps empty
segments; `"".split(sep)` is `[""]`). -/
def splitOnCharGo (sep : Char) : List Char → List Char → List (List Char)
  | [], acc => [acc.reverse]
  | c :: rest, acc =>
    if c == sep then acc.reverse :: splitOnCharGo sep rest []
    else splitOnCharGo sep rest (c :: acc)

def pySplitChar (s : String) (sep : Char) : List String :=
  (splitOnCharGo sep s.data []).map String.mk

/-- The deduplication loop at the end of `extract_variations`:
`if var and var not in seen: seen.add(var); unique_variations.append(var)`. -/
def dedupNE (seen : List String) : List String → List String
  | [] => []
  | v :: rest =>
    if v ≠ "" ∧ v ∉ seen then v :: dedupNE (v :: seen) rest
    else dedupNE seen rest

/-- Spec-side comparison definition of the dedup step ("Deduplicate
preserving first-occurrence order; drop empty strings"): walk the input in
order, keep each non-empty element the first time it appears and delete its
later duplicates, drop empty elements.  The output is manifestly the
non-empty elements in first-occurrence input order. -/
def firstOccurDedup : List String → List String
  | [] => []
  | v :: t =>
    if v ≠ "" then v :: firstOccurDedup (t.filter (fun w => w ≠ v))
    else firstOccurDedup t
termination_by l => l.length
decreasing_by
  · simp only [List.length_cons]
    exact Nat.lt_succ_of_le (List.length_filter_le _ _)
  · simp

/-- The variation list of `extract_variations` before the final dedup loop:
cleaned title, then episode segment (after the last colon) and series
segment (before the first colon), then a `the `-stripping pass over the
snapshot. -/
def rawVariations (title : String) : List String :=
  let cleaned := clean_title_for_matching title
  let vars0 := [cleaned]
  let vars1 :=
    if cleaned.data.contains ':' then
      let parts := pySplitChar cleaned ':'
      let episode := pyStrip (parts.getLastD "")
      let withEp := if episode ≠ "" then vars0 ++ [episode] else vars0
      let series := pyStrip (parts.headD "")
      if series ≠ "" then withEp ++ [series] else withEp
    else vars0
  vars1 ++ (vars1.filter (fun v => leadsWith (pyLower v).data "the ".data)).map
    (fun v => pyStrip (String.mk (v.data.drop 4)))

/-- `extract_variations` (identical in all three sources) on a string input:
the built variation list followed by the deduplication loop dropping
empties. -/
def extract_variations (title : String) : List String :=
  dedupNE [] (rawVariations title)

/-- `extract_variations` including the NaN/non-string guard, which returns
the single-element list `[""]`. -/
def extract_variationsPy (title : Option String) : List String :=
  match title with
  | none => [""]
  | some s => extract_variations s

/-!
### Data model

A `moviedata.csv` row carries a unique identifier, a primary and an original
name, and a runtime cell; `none` models a pandas NaN cell, `some s` the
cell's string form (the column holds object dtype because of `\N` markers).
-/

structure MovieRow where
  tconst : String
  primaryTitle : String
  originalTitle : String
  runtimeMinutes : Option String
deriving DecidableEq, Repr

/-- An `alternatetitles.csv` row: alternate name → catalog identifier. -/
structure AltRow where
  titleId : String
  title : String
deriving DecidableEq, Repr

/-- A watch-history row: `none` models a NaN cell. -/
structure HistoryEntry where
  title : Option String
  date : Option String
deriving DecidableEq, Repr

/-- The `ChunkedRuntimeCalculator` state: chunk size (10000 in `__init__`),
the `loaded` flag, and the two reference datasets.  `Except.error` models a
file whose read raises when the streaming reader is consumed (missing,
deleted or corrupt file); the exception is caught by the engine's
`try`/`except`. -/
structure Calculator where
  chunkSize : Nat
  loaded : Bool
  moviedata : Except String (List MovieRow)
  alttitles : Except String (List AltRow)

/-- The triple returned by both resolvers: (runtime, identifier, label). -/
abbrev FindTriple := Option Int × Option String × String

/-- `pd.read_csv(..., chunksize=n)`: the file in windows of `n` rows.
Fuelled by the list length; `chunkSize` is always positive (10000). -/
def chunksOfGo (n : Nat) : Nat → List α → List (List α)
  | _, [] => []
  | 0, l => [l]
  | fuel + 1, l => l.take n :: chunksOfGo n fuel (l.drop n)

def chunksOf (n : Nat) (l : List α) : List (List α) :=
  chunksOfGo n l.length l

/-- The per-row runtime acceptance used by the chunked passes:
`if pd.notna(runtime) and str(runtime).strip() not in ['', '\\N', 'N/A']:
try: int(float(runtime)) except: <skip>`.  `none` covers the NaN cell, the
textual sentinels, and the parse failure — all of which move the scan to the
next candidate. -/
def acceptRuntime : Option String → Option Int
  | none => none
  | some s =>
    if pyStrip s ∈ ["", "\\N", "N/A"] then none
    else pyIntFloat s

/-- One window of strategy 1 on the `primaryTitle` column: for each
(lowercased, enumerated) candidate, take the first row of the window whose
lowercased primary name equals it, and accept it only if its runtime is
usable; otherwise move to the next candidate. -/
def primaryPassChunk (chunk : List MovieRow) (vl : List (Nat × String))
    (tv : List String) : Option FindTriple :=
  vl.findSome? fun iv =>
    match chunk.find? (fun r => pyLower r.primaryTitle == iv.2) with
    | none => none
    | some row =>
      match acceptRuntime row.runtimeMinutes with
      | some rint =>
        some (some rint, some row.tconst,
          "Primary title match: '" ++ tv.getD iv.1 "" ++ "'")
      | none => none

/-- One window of strategy 1 on the `originalTitle` column. -/
def originalPassChunk (chunk : List MovieRow) (vl : List (Nat × String))
    (tv : List String) : Option FindTriple :=
  vl.findSome? fun iv =>
    match chunk.find? (fun r => pyLower r.originalTitle == iv.2) with
    | none => none
    | some row =>
      match acceptRuntime row.runtimeMinutes with
      | some rint =>
        some (some rint, some row.tconst,
          "Original title match: '" ++ tv.getD iv.1 "" ++ "'")
      | none => none

/-- The inner rescan of `moviedata` for an alternate-title hit.  Per window:
no row with this identifier → next window; a row whose runtime cell is NaN
or a sentinel → `break` (give up on this hit); a parse failure →
`continue` (next window); otherwise return. -/
def altResolveTconst (movieChunks : List (List MovieRow)) (t : String)
    (mk : Int → FindTriple) : Option FindTriple :=
  match movieChunks with
  | [] => none
  | mc :: rest =>
    match mc.find? (fun r => r.tconst == t) with
    | none => altResolveTconst rest t mk
    | some row =>
      match row.runtimeMinutes with
      | none => none
      | some s =>
        if pyStrip s ∈ ["", "\\N", "N/A"] then none
        else
          match pyIntFloat s with
          | some rint => some (mk rint)
          | none => altResolveTconst rest t mk

/-- One window of strategy 2 on the alternate-title file: first alternate
row matching the candidate, then a fresh rescan of `moviedata` for its
identifier. -/
def altPassChunk (achunk : List AltRow) (movieChunks : List (List MovieRow))
    (vl : List (Nat × String)) (tv : List String) : Option FindTriple :=
  vl.findSome? fun iv =>
    match achunk.find? (fun a => pyLower a.title == iv.2) with
    | none => none
    | some arow =>
      altResolveTconst movieChunks arow.titleId
        (fun rint => (some rint, some arow.titleId,
          "Alt title match: '" ++ tv.getD iv.1 "" ++ "'"))

/-- `ChunkedRuntimeCalculator.find_runtime_chunked` (identical in `app.py`
and `motherapp.py`): loaded guard, candidate lowering, a full strategy-1
pass over all `moviedata` windows (primary column then original column per
window, all candidates per column), then a full strategy-2 pass over the
alternate-title windows.  A read error anywhere inside the `try` yields the
`Search error` triple. -/
def find_runtime_chunked (c : Calculator) (title_variations : List String) :
    FindTriple :=
  if !c.loaded then (none, none, "Database not loaded")
  else
    let vl := ((title_variations.filter (fun v => v ≠ "")).map pyLower).enum
    if vl.isEmpty then (none, none, "No valid variations")
    else
      match c.moviedata with
      | .error e => (none, none, "Search error: " ++ e)
      | .ok md =>
        let mchunks := chunksOf c.chunkSize md
        match mchunks.findSome? (fun ch =>
            match primaryPassChunk ch vl title_variations with
            | some res => some res
            | none => originalPassChunk ch vl title_variations) with
        | some res => res
        | none =>
          match c.alttitles with
          | .error e => (none, none, "Search error: " ++ e)
          | .ok alts =>
            match (chunksOf c.chunkSize alts).findSome? (fun ach =>
                altPassChunk ach (chunksOf c.chunkSize md) vl
                  title_variations) with
            | some res => res
            | none => (none, none, "Not found after chunked search")

/-!
### Batch layer (`ChunkedRuntimeCalculator.analyze_watch_history`)
-/

/-- A record appended to `found_entries`. -/
structure FoundEntry where
  original_title : String
  matched_via : String
  runtime : Int
  tconst : Option String
  date : String
deriving DecidableEq, Repr

/-- A record appended to `not_found_entries`. -/
structure NotFoundEntry where
  original_title : String
  variations_tried : String
  reason : String
  date : String
deriving DecidableEq, Repr

/-- The dict returned by `analyze_watch_history`. -/
structure AnalysisResult where
  total_runtime : Int
  found_count : Nat
  not_found_count : Nat
  found_entries : List FoundEntry
  not_found_entries : List NotFoundEntry
deriving DecidableEq, Repr

/-- `str(date) if not pd.isna(date) else ''`. -/
def dateStr : Option String → String
  | none => ""
  | some s => s

/-- Python truthiness of the resolver's runtime: `if runtime:` is false both
for `None` and for `0`. -/
def pyTruthyInt : Option Int → Bool
  | none => false
  | some r => r != 0

/-- The body of the per-row loop of `analyze_watch_history`, threading
`(total_runtime, found_entries, not_found_entries)`. -/
def analyzeStep (c : Calculator)
    (acc : Int × List FoundEntry × List NotFoundEntry) (row : HistoryEntry) :
    Int × List FoundEntry × List NotFoundEntry :=
  let title_str := match row.title with | none => "nan" | some s => s
  let d := dateStr row.date
  if title_str ∈ ["nan", "None", ""] ∨ pyStrip title_str = "" then
    (acc.1, acc.2.1, acc.2.2 ++ [⟨title_str, "", "Empty/Invalid title", d⟩])
  else
    let variations := extract_variations title_str
    let res := find_runtime_chunked c variations
    if pyTruthyInt res.1 then
      (acc.1 + res.1.getD 0,
       acc.2.1 ++ [⟨title_str, res.2.2, res.1.getD 0, res.2.1, d⟩],
       acc.2.2)
    else
      (acc.1, acc.2.1,
       acc.2.2 ++ [⟨title_str, pyStrList variations,
         "No matches found in chunked search", d⟩])

/-- `if limit: watchhistory_df = watchhistory_df.head(limit)`.  The HTTP
layer coerces nonpositive limits to `None` before calling. -/
def applyLimit (h : List HistoryEntry) : Option Nat → List HistoryEntry
  | none => h
  | some n => if n ≠ 0 then h.take n else h

/-- `ChunkedRuntimeCalculator.analyze_watch_history`: apply the optional
limit, then visit every remaining row once, in order.  (The `batch_size =
50` slicing only drives logging and gc; it is kept as the outer fold.) -/
def analyze_watch_history (c : Calculator) (history : List HistoryEntry)
    (limit : Option Nat) : AnalysisResult :=
  let limited := applyLimit history limit
  let acc := (chunksOf 50 limited).foldl
    (fun a batch => batch.foldl (analyzeStep c) a) (0, [], [])
  { total_runtime := acc.1
    found_count := acc.2.1.length
    not_found_count := acc.2.2.length
    found_entries := acc.2.1
    not_found_entries := acc.2.2 }

/-!
### The `script.py` resolver (`find_runtime_enhanced`)

This variant is candidate-major: for each candidate in turn it tries all
five strategies against the fully loaded dataframes.  Its `int(float(...))`
calls are not wrapped in `try`/`except`, so a runtime cell that passes the
sentinel filter but fails to parse raises; `Except.error` models that
uncaught `ValueError`.
-/

/-- A structurally matched row's runtime in `find_runtime_enhanced`:
`.ok none` = unusable (NaN or sentinel), fall through to the next strategy;
`.error` = uncaught parse exception. -/
def tryRow (runtime : Option String) (mk : Int → FindTriple) :
    Except String (Option FindTriple) :=
  match runtime with
  | none => .ok none
  | some s =>
    if pyStrip s ∈ ["", "\\N", "N/A"] then .ok none
    else
      match pyIntFloat s with
      | some rint => .ok (some (mk rint))
      | none => .error ("could not convert string to float: '" ++ s ++ "'")

/-- Chain two strategy attempts: a hit or a raise short-circuits. -/
def chainO (a b : Except String (Option FindTriple)) :
    Except String (Option FindTriple) :=
  match a with
  | .error e => .error e
  | .ok (some t) => .ok (some t)
  | .ok none => b

/-- `match.loc[match['primaryTitle'].str.len().idxmin()]`: the first row
whose primary name has minimal length (pandas `idxmin` keeps the first
occurrence of the minimum). -/
def pickShortest (rows : List MovieRow) : Option MovieRow :=
  rows.foldl (fun acc r =>
    match acc with
    | none => some r
    | some b => if r.primaryTitle.length < b.primaryTitle.length then some r
                else acc) none

/-- Case-insensitive substring test, modelling
`.str.contains(re.escape(v), case=False, na=False)`. -/
def containsCI (hay needle : String) : Bool :=
  infixChars (pyLower hay).data (pyLower needle).data

/-- Strategy 5 of `find_runtime_enhanced`: for the first three alternate
rows containing the candidate, look the identifier up in `moviedata` and
accept the first usable runtime. -/
def strat5Go (md : List MovieRow) (v : String) :
    List AltRow → Except String (Option FindTriple)
  | [] => .ok none
  | arow :: rest =>
    match md.find? (fun r => r.tconst == arow.titleId) with
    | none => strat5Go md v rest
    | some movie =>
      match tryRow movie.runtimeMinutes (fun rint =>
          (some rint, some arow.titleId,
           "Alt title partial: '" ++ v ++ "' → '" ++ arow.title ++ "'")) with
      | .error e => .error e
      | .ok (some t) => .ok (some t)
      | .ok none => strat5Go md v rest

/-- Strategies 1–5 of `find_runtime_enhanced` for a single candidate. -/
def enhancedOneVar (md : List MovieRow) (alts : List AltRow) (v : String) :
    Except String (Option FindTriple) :=
  let s1 :=
    match md.find? (fun r => pyLower r.primaryTitle == pyLower v) with
    | none => .ok none
    | some row => tryRow row.runtimeMinutes (fun rint =>
        (some rint, some row.tconst, "Direct match (primary): '" ++ v ++ "'"))
  let s2 :=
    match md.find? (fun r => pyLower r.originalTitle == pyLower v) with
    | none => .ok none
    | some row => tryRow row.runtimeMinutes (fun rint =>
        (some rint, some row.tconst, "Direct match (original): '" ++ v ++ "'"))
  let s3 :=
    match pickShortest (md.filter (fun r => containsCI r.primaryTitle v)) with
    | none => .ok none
    | some row => tryRow row.runtimeMinutes (fun rint =>
        (some rint, some row.tconst,
         "Partial match (primary): '" ++ v ++ "' → '" ++ row.primaryTitle ++ "'"))
  let s4 :=
    match alts.find? (fun a => pyLower a.title == pyLower v) with
    | none => .ok none
    | some arow =>
      match md.find? (fun r => r.tconst == arow.titleId) with
      | none => .ok none
      | some movie => tryRow movie.runtimeMinutes (fun rint =>
          (some rint, some arow.titleId, "Alt title exact: '" ++ v ++ "'"))
  let s5 := strat5Go md v ((alts.filter (fun a => containsCI a.title v)).take 3)
  chainO s1 (chainO s2 (chainO s3 (chainO s4 s5)))

/-- The candidate loop of `find_runtime_enhanced`: skip empty candidates,
try all strategies for one candidate before moving to the next. -/
def find_runtime_enhancedGo (md : List MovieRow) (alts : List AltRow) :
    List String → Except String FindTriple
  | [] => .ok (none, none, "Not found")
  | v :: rest =>
    if v = "" then find_runtime_enhancedGo md alts rest
    else
      match enhancedOneVar md alts v with
      | .error e => .error e
      | .ok (some t) => .ok t
      | .ok none => find_runtime_enhancedGo md alts rest

/-- `find_runtime_enhanced` from `script.py`. -/
def find_runtime_enhanced (title_variations : List String)
    (md : List MovieRow) (alts : List AltRow) : Except String FindTriple :=
  find_runtime_enhancedGo md alts title_variations

/-!
### Title-column detection (`calculate_runtime` in `app.py`/`motherapp.py`)
-/

/-- `for col in available_columns: if col.lower() in ['title', 'name',
'movie', 'show']: title_column = col; break`. -/
def find_title_column (cols : List String) : Option String :=
  cols.find? (fun c => ["title", "name", "movie", "show"].contains (pyLower c))

/-- The column check of the `/api/calculate` handler: no recognized column
is a 400 configuration error, otherwise the found column is used. -/
def title_column_check (cols : List String) : Except String String :=
  match find_title_column cols with
  | some c => .ok c
  | none =>
    .error ("CSV must contain a title column. Found columns: " ++ pyStrList cols)

/-!
### Concrete reference data used by the claim theorems
-/

/-- Catalog in which candidate "a" matches rows 1 and 3 (row 1 with a `\N`
sentinel runtime, row 3 with a usable one) and candidate "b" matches row 2. -/
def c1md : List MovieRow :=
  [⟨"t1", "a", "x1", some "\\N"⟩, ⟨"t2", "b", "x2", some "7"⟩,
   ⟨"t3", "a", "x3", some "5"⟩]

def c1calc : Calculator := ⟨10000, true, .ok c1md, .ok []⟩

/-- Catalog in which "bbb" has an exact primary-name match and "aaa"
resolves only through the alternate-title index (to "t9"). -/
def c2md : List MovieRow :=
  [⟨"t1", "bbb", "o1", some "7"⟩, ⟨"t9", "zzz", "o2", some "9"⟩]

def c2alts : List AltRow := [⟨"t9", "aaa"⟩]

def c2calc : Calculator := ⟨10000, true, .ok c2md, .ok c2alts⟩

/-- Single-row catalog with a negative runtime cell. -/
def c3neg : Calculator :=
  ⟨10000, true, .ok [⟨"t1", "neg", "y", some "-5"⟩], .ok []⟩

/-- Single-row catalog with a zero runtime cell. -/
def c3zero : Calculator :=
  ⟨10000, true, .ok [⟨"t1", "zero", "y", some "0"⟩], .ok []⟩

/-- A calculator whose `moviedata` read raises during resolution. -/
def c7err : Calculator := ⟨10000, true, .error "read failed", .ok []⟩

/-- A 20-entry watch history. -/
def c8hist : List HistoryEntry := List.replicate 20 ⟨some "Inception", none⟩

/-!
## Helper lemmas
-/

/-- Every element surviving the dedup loop is non-empty and was not yet
seen. -/
theorem dedupNE_mem : ∀ (l seen : List String) (v : String),
    v ∈ dedupNE seen l → v ≠ "" ∧ v ∉ seen := by
  intro l
  induction l with
  | nil => intro seen v h; simp [dedupNE] at h
  | cons a rest ih =>
    intro seen v h
    simp only [dedupNE] at h
    split at h
    · rename_i hc
      rcases List.mem_cons.mp h with rfl | h2
      · exact hc
      · have h3 := ih _ _ h2
        exact ⟨h3.1, fun hm => h3.2 (List.mem_cons_of_mem _ hm)⟩
    · exact ih _ _ h

/-- The imperative seen-set dedup loop computes exactly the
first-occurrence-order-preserving deduplication of the elements not yet
seen. -/
theorem dedupNE_eq_firstOccurDedup :
    ∀ (l seen : List String),
      dedupNE seen l = firstOccurDedup (l.filter (fun v => v ∉ seen)) := by
  intro l
  induction l with
  | nil => intro seen; simp [dedupNE, firstOccurDedup]
  | cons v rest ih =>
    intro seen
    simp only [dedupNE, List.filter_cons]
    by_cases hseen : v ∈ seen
    · rw [if_neg (by simp [hseen]), if_neg (by simp [hseen])]
      exact ih seen
    · by_cases hv : v = ""
      · subst hv
        rw [if_neg (by simp), if_pos (by simp [hseen])]
        simp only [firstOccurDedup]
        rw [if_neg (by simp)]
        exact ih seen
      · rw [if_pos ⟨hv, hseen⟩, if_pos (by simp [hseen])]
        simp only [firstOccurDedup]
        rw [if_pos hv]
        rw [ih (v :: seen)]
        congr 1
        rw [List.filter_filter]
        congr 1
        apply List.filter_congr
        intro a _
        simp [List.mem_cons, not_or, And.comm]

/-- The dedup loop produces a duplicate-free list. -/
theorem dedupNE_nodup : ∀ (l seen : List String), (dedupNE seen l).Nodup := by
  intro l
  induction l with
  | nil => intro seen; simp [dedupNE]
  | cons a rest ih =>
    intro seen
    simp only [dedupNE]
    split
    · refine List.nodup_cons.mpr ⟨?_, ih _⟩
      intro hmem
      exact (dedupNE_mem rest (a :: seen) a hmem).2 (List.mem_cons_self a seen)
    · exact ih _

/-- An unloaded calculator short-circuits resolution. -/
theorem find_unloaded (c : Calculator) (vs : List String)
    (hc : c.loaded = false) :
    find_runtime_chunked c vs = (none, none, "Database not loaded") := by
  unfold find_runtime_chunked
  rw [hc]
  rfl

/-- Folding the per-row step in 50-row batches visits the rows exactly once,
in order. -/
theorem foldl_chunksOfGo {α β : Type} (f : β → α → β) (n : Nat) :
    ∀ (fuel : Nat) (l : List α) (acc : β),
      (chunksOfGo n fuel l).foldl (fun a b => b.foldl f a) acc =
        l.foldl f acc := by
  intro fuel
  induction fuel with
  | zero => intro l acc; cases l <;> simp [chunksOfGo]
  | succ fu ih =>
    intro l acc
    cases l with
    | nil => simp [chunksOfGo]
    | cons x xs =>
      show ((x :: xs).take n :: chunksOfGo n fu ((x :: xs).drop n)).foldl
          (fun a b => b.foldl f a) acc = (x :: xs).foldl f acc
      rw [List.foldl_cons, ih, ← List.foldl_append, List.take_append_drop]

/-- `analyze_watch_history` as a single fold over the limited history. -/
theorem analyze_as_foldl (c : Calculator) (history : List HistoryEntry)
    (limit : Option Nat) :
    analyze_watch_history c history limit =
      { total_runtime :=
          ((applyLimit history limit).foldl (analyzeStep c) (0, [], [])).1
        found_count :=
          ((applyLimit history limit).foldl (analyzeStep c) (0, [], [])).2.1.length
        not_found_count :=
          ((applyLimit history limit).foldl (analyzeStep c) (0, [], [])).2.2.length
        found_entries :=
          ((applyLimit history limit).foldl (analyzeStep c) (0, [], [])).2.1
        not_found_entries :=
          ((applyLimit history limit).foldl (analyzeStep c) (0, [], [])).2.2 } := by
  unfold analyze_watch_history chunksOf
  simp only [foldl_chunksOfGo]

/-- With an unloaded calculator every history row lands in the
not-found bucket. -/
theorem fold_unloaded (c : Calculator) (hc : c.loaded = false) :
    ∀ (l : List HistoryEntry) (acc : Int × List FoundEntry × List NotFoundEntry),
      (l.foldl (analyzeStep c) acc).2.1 = acc.2.1 ∧
      (l.foldl (analyzeStep c) acc).2.2.length = acc.2.2.length + l.length := by
  intro l
  induction l with
  | nil => intro acc; simp
  | cons row rest ih =>
    intro acc
    have hstep : (analyzeStep c acc row).2.1 = acc.2.1 ∧
        (analyzeStep c acc row).2.2.length = acc.2.2.length + 1 := by
      unfold analyzeStep
      split
      · simp
      · simp [find_unloaded, hc, pyTruthyInt]
        split <;> simp
    rw [List.foldl_cons, List.length_cons]
    have h2 := ih (analyzeStep c acc row)
    refine ⟨h2.1.trans hstep.1, ?_⟩
    rw [h2.2, hstep.2]
    omega

/-!
## Claim theorems
-/

/-- C6: `extract_variations "Stranger Things: Season 2: Chapter Seven"`
produces the cleaned title, then the episode segment "Chapter Seven", then
the series segment "Stranger Things" — the episode appears strictly before
the series in the ordering. -/
theorem c6_episode_before_series :
    extract_variations "Stranger Things: Season 2: Chapter Seven" =
      ["Stranger Things: Chapter Seven", "Chapter Seven", "Stranger Things"] ∧
    List.indexOf "Chapter Seven"
        (extract_variations "Stranger Things: Season 2: Chapter Seven") <
      List.indexOf "Stranger Things"
        (extract_variations "Stranger Things: Season 2: Chapter Seven") := by
  constructor
  · rfl
  · decide

/-- C10: a history entry whose title string is exactly "nan" or "None" is
classified as `Empty/Invalid title` with no variations recorded, whatever
the calculator state — in particular even when the catalog could resolve
those strings — so such a title can never be resolved. -/
theorem c10_nan_none_never_resolved (c : Calculator) (d : Option String) :
    analyze_watch_history c [⟨some "nan", d⟩, ⟨some "None", d⟩] none =
      { total_runtime := 0, found_count := 0, not_found_count := 2,
        found_entries := [],
        not_found_entries :=
          [⟨"nan", "", "Empty/Invalid title", dateStr d⟩,
           ⟨"None", "", "Empty/Invalid title", dateStr d⟩] } := rfl

/-- C8: with `limit = 5` over a 20-entry history, analysis equals analysis
of the 5-entry input-order head with no limit; the head has exactly 5
entries, and any other 20-entry history with the same first 5 entries gives
the same result — the remaining 15 entries are ignored. -/
theorem c8_limit_head (c : Calculator) (h : List HistoryEntry)
    (hlen : h.length = 20) :
    analyze_watch_history c h (some 5) =
      analyze_watch_history c (h.take 5) none ∧
    (h.take 5).length = 5 ∧
    (∀ h2 : List HistoryEntry, h2.take 5 = h.take 5 →
      analyze_watch_history c h2 (some 5) = analyze_watch_history c h (some 5)) := by
  have e : ∀ hh : List HistoryEntry, analyze_watch_history c hh (some 5) =
      analyze_watch_history c (hh.take 5) none := fun hh => rfl
  refine ⟨rfl, ?_, fun h2 hpre => ?_⟩
  · rw [List.length_take]
    omega
  · rw [e h2, e h, hpre]

/-- C8 witness: the theorem applied to a concrete 20-entry history. -/
theorem c8_witness :
    analyze_watch_history ⟨10000, false, .ok [], .ok []⟩ c8hist (some 5) =
      analyze_watch_history ⟨10000, false, .ok [], .ok []⟩ (c8hist.take 5)
        none :=
  (c8_limit_head ⟨10000, false, .ok [], .ok []⟩ c8hist (by decide)).1

/-- C4 counterexample: normalize is not idempotent.  For
"a(19(2000)99)b" the first pass removes only "(2000)" (yielding
"a(1999)b", which exposes a fresh year annotation) and a second pass
removes "(1999)" as well. -/
theorem c4_counterexample :
    clean_title_for_matching "a(19(2000)99)b" = "a(1999)b" ∧
    clean_title_for_matching (clean_title_for_matching "a(19(2000)99)b") =
      "ab" ∧
    clean_title_for_matching (clean_title_for_matching "a(19(2000)99)b") ≠
      clean_title_for_matching "a(19(2000)99)b" := by
  refine ⟨rfl, rfl, ?_⟩
  decide

/-- C4 amended: normalize is idempotent exactly on titles where a second
pass finds nothing left to rewrite — whenever the strip, year-removal and
season-collapse substitutions all leave `normalize(t)` unchanged, applying
normalize again is the identity.  (The counterexample shows the unrestricted
claim fails when a removal exposes a fresh year annotation.) -/
theorem c4_amended (t : String)
    (h1 : pyStrip (clean_title_for_matching t) = clean_title_for_matching t)
    (h2 : subYear (clean_title_for_matching t) = clean_title_for_matching t)
    (h3 : subSeason (clean_title_for_matching t) = clean_title_for_matching t) :
    clean_title_for_matching (clean_title_for_matching t) =
      clean_title_for_matching t := by
  have e : clean_title_for_matching (clean_title_for_matching t) =
      pyStrip (subSeason (subYear (pyStrip (clean_title_for_matching t)))) :=
    rfl
  rw [e, h1, h2, h3]
  exact h1

/-- C4 witness: the amended idempotence at "Inception (2010)". -/
theorem c4_witness :
    clean_title_for_matching (clean_title_for_matching "Inception (2010)") =
      clean_title_for_matching "Inception (2010)" :=
  c4_amended "Inception (2010)" (by decide) (by decide) (by decide)

/-- C5 counterexample: "(2021)" is a non-empty string that normalizes to the
empty string, yet the variation generator returns the empty list — not the
claimed single-element list containing the empty string. -/
theorem c5_counterexample :
    clean_title_for_matching "(2021)" = "" ∧
    extract_variations "(2021)" = [] ∧
    extract_variations "(2021)" ≠ [""] := by
  refine ⟨rfl, rfl, ?_⟩
  decide

/-- C5 amended: a string input that normalizes to empty yields the empty
list (the `[""]` signal is produced only for a missing/non-string input);
every returned element is non-empty with no duplicates, and the list is
exactly the first-occurrence-order-preserving deduplication of the built
variation sequence (`firstOccurDedup` of `rawVariations`). -/
theorem c5_amended (s : String) :
    (clean_title_for_matching s = "" → extract_variations s = []) ∧
    (∀ v ∈ extract_variations s, v ≠ "") ∧
    (extract_variations s).Nodup ∧
    extract_variations s = firstOccurDedup (rawVariations s) ∧
    extract_variationsPy none = [""] := by
  refine ⟨fun h => ?_, fun v hv => (dedupNE_mem _ _ v hv).1,
    dedupNE_nodup _ _, ?_, rfl⟩
  · simp only [extract_variations, rawVariations, h]
    decide
  · show dedupNE [] (rawVariations s) = firstOccurDedup (rawVariations s)
    rw [dedupNE_eq_firstOccurDedup]
    congr 1
    simp

/-- C5 witness: the amended theorem applied at "   " (which normalizes to
empty) and at the C6 input (whose variation elements are non-empty). -/
theorem c5_witness :
    extract_variations "   " = [] ∧ "Chapter Seven" ≠ "" := by
  constructor
  · exact (c5_amended "   ").1 (by decide)
  · exact (c5_amended "Stranger Things: Season 2: Chapter Seven").2.1
      "Chapter Seven" (by decide)

/-- C1 counterexample: candidate "a" matches rows 1 and 3 of the
single-window catalog `c1md`; row 1 carries the `\N` sentinel and row 3 a
usable runtime 5.  The claim predicts the scan stays on candidate "a" until
exhausted and returns runtime 5 from the later same-name row; the code
instead abandons "a" after examining only the first matching row and falls
back to candidate "b" mid-pass, returning runtime 7. -/
theorem c1_counterexample :
    find_runtime_chunked c1calc ["a", "b"] =
      (some 7, some "t2", "Primary title match: 'b'") ∧
    find_runtime_chunked c1calc ["a", "b"] ≠
      (some 5, some "t3", "Primary title match: 'a'") := by
  refine ⟨rfl, ?_⟩
  decide

/-- C1 amended: within a window only the first row whose primary name
matches a candidate is examined; when its runtime cell is unusable (NaN
here, the sentinel in the counterexample) the engine moves on to the next
candidate in the same pass instead of scanning for a later row with the
same name — whatever that later row holds. -/
theorem c1_amended (t1 t2 t3 o1 o2 o3 : String) (r3 : Option String) :
    find_runtime_chunked
      ⟨10000, true,
       .ok [⟨t1, "a", o1, none⟩, ⟨t2, "b", o2, some "7"⟩, ⟨t3, "a", o3, r3⟩],
       .ok []⟩ ["a", "b"] =
      (some 7, some t2, "Primary title match: 'b'") := rfl

/-- C2 counterexample: in `c2md`/`c2alts` candidate "aaa" resolves only
through the alternate-title index while candidate "bbb" has an exact
primary-name match with a usable runtime.  Sweeping strategy 1 for every
candidate before any alternate-title lookup would produce "bbb"'s primary
match; `find_runtime_enhanced` of `script.py` instead returns candidate
"aaa"'s alternate-title hit, i.e. it runs all strategies for one candidate
before moving to the next, refuting the claim for that cited source. -/
theorem c2_counterexample :
    find_runtime_enhanced ["aaa", "bbb"] c2md c2alts =
      .ok (some 9, some "t9", "Alt title exact: 'aaa'") ∧
    find_runtime_enhanced ["aaa", "bbb"] c2md c2alts ≠
      .ok (some 7, some "t1", "Direct match (primary): 'bbb'") := by
  refine ⟨rfl, fun hco => ?_⟩
  have h2 : ((some 9 : Option Int), (some "t9" : Option String),
      "Alt title exact: 'aaa'") =
      ((some 7 : Option Int), (some "t1" : Option String),
      "Direct match (primary): 'bbb'") := by
    exact Except.ok.inj (by rw [← hco]; rfl)
  exact absurd h2 (by decide)

/-- C2 amended: the chunked resolver of `app.py`/`motherapp.py` does sweep
strategy 1 across the whole catalog for every candidate before any
strategy-2 lookup — on the same data it returns "bbb"'s primary-name match,
not "aaa"'s alternate-title hit — while the `script.py` resolver is
candidate-major (see the counterexample). -/
theorem c2_amended :
    find_runtime_chunked c2calc ["aaa", "bbb"] =
      (some 7, some "t1", "Primary title match: 'bbb'") ∧
    find_runtime_chunked c2calc ["aaa", "bbb"] ≠
      (some 9, some "t9", "Alt title match: 'aaa'") := by
  refine ⟨rfl, ?_⟩
  decide

/-- C7 counterexample: when the `moviedata` read raises during resolution,
the batch does not abort and returns a complete ordinary result: the title
is recorded as a per-title not-found with the standard reason string,
conflating data unavailability with NotFound. -/
theorem c7_counterexample :
    analyze_watch_history c7err [⟨some "Inception", some "2020-01-01"⟩] none =
      { total_runtime := 0, found_count := 0, not_found_count := 1,
        found_entries := [],
        not_found_entries := [⟨"Inception", "['Inception']",
          "No matches found in chunked search", "2020-01-01"⟩] } := rfl

/-- C7 amended: with the reference data unavailable (calculator not
loaded), resolution returns a not-found-style triple per title and the
batch layer records every entry in the not-found bucket and runs to
completion — availability failures are folded into per-title not-found
outcomes rather than aborting with a distinct top-level error. -/
theorem c7_amended :
    (∀ (c : Calculator) (vs : List String), c.loaded = false →
      find_runtime_chunked c vs = (none, none, "Database not loaded")) ∧
    (∀ (c : Calculator) (h : List HistoryEntry) (lim : Option Nat),
      c.loaded = false →
      (analyze_watch_history c h lim).found_count = 0 ∧
      (analyze_watch_history c h lim).not_found_count =
        (applyLimit h lim).length) := by
  refine ⟨find_unloaded, fun c h lim hc => ?_⟩
  rw [analyze_as_foldl]
  have hf := fold_unloaded c hc (applyLimit h lim) (0, [], [])
  exact ⟨by rw [hf.1]; rfl, by rw [hf.2]; simp⟩

/-- C7 witness: the amended theorem applied to a concrete unloaded
calculator and one-entry history. -/
theorem c7_witness :
    find_runtime_chunked ⟨10000, false, .ok [], .ok []⟩ ["Inception"] =
      (none, none, "Database not loaded") ∧
    (analyze_watch_history ⟨10000, false, .ok [], .ok []⟩
        [⟨some "Inception", some "d"⟩] none).found_count = 0 :=
  ⟨c7_amended.1 _ _ rfl, (c7_amended.2 _ _ none rfl).1⟩

/-- C9 counterexample: the column name "TITLE" is recognized as the title
column even though it is not an element of the claimed case-sensitive
allow-list — recognition is case-insensitive. -/
theorem c9_counterexample :
    find_title_column ["TITLE"] = some "TITLE" ∧
    "TITLE" ∉ ["Title", "title", "Name", "name", "Movie", "movie",
       "Show", "show"] := by
  refine ⟨rfl, ?_⟩
  decide

/-- C9 amended: a history column is recognized as the title column exactly
when its lower-cased name is one of title/name/movie/show (the first such
column is used), and when no column qualifies the call fails with the
caller-facing configuration error listing the available columns. -/
theorem c9_amended (cols : List String) :
    ((find_title_column cols).isSome ↔
      ∃ col ∈ cols, pyLower col ∈ ["title", "name", "movie", "show"]) ∧
    ((∀ col ∈ cols, pyLower col ∉ ["title", "name", "movie", "show"]) →
      title_column_check cols =
        .error ("CSV must contain a title column. Found columns: " ++
          pyStrList cols)) := by
  constructor
  · rw [find_title_column, List.find?_isSome]
    constructor
    · rintro ⟨x, hx, hp⟩
      exact ⟨x, hx, by simpa using hp⟩
    · rintro ⟨x, hx, hp⟩
      exact ⟨x, hx, by simpa using hp⟩
  · intro hall
    have hnone : find_title_column cols = none := by
      rw [find_title_column, List.find?_eq_none]
      intro x hx
      simpa using hall x hx
    rw [title_column_check, hnone]

/-- C3 counterexample: a runtime cell "-5" passes the acceptance filter and
is returned as a negative Found runtime (the claim says negatives are
rejected); a runtime cell "0" is returned Found by the resolver but the
batch layer classifies the entry as not found because of `if runtime:`
truthiness (the claim says it is counted as found). -/
theorem c3_counterexample :
    find_runtime_chunked c3neg ["neg"] =
      (some (-5), some "t1", "Primary title match: 'neg'") ∧
    find_runtime_chunked c3zero ["zero"] =
      (some 0, some "t1", "Primary title match: 'zero'") ∧
    (analyze_watch_history c3zero [⟨some "zero", some "2020-01-01"⟩]
        none).found_count = 0 ∧
    (analyze_watch_history c3zero [⟨some "zero", some "2020-01-01"⟩]
        none).not_found_count = 1 :=
  ⟨rfl, rfl, rfl, rfl⟩

/-- C3 amended: on a single-row catalog the resolver's returned runtime is
exactly `acceptRuntime` of the row's cell — a NaN cell or a textual
sentinel ('', '\N', 'N/A') is treated as absent (never as zero) and a cell
is otherwise accepted iff it parses as a plain decimal (sign included, so
negative values are accepted, truncated toward zero); a parsed 0 is
returned Found by the resolver yet dropped by the batch layer. -/
theorem c3_amended :
    (∀ cell : Option String,
      (find_runtime_chunked ⟨10000, true, .ok [⟨"t1", "x", "y", cell⟩], .ok []⟩
        ["x"]).1 = acceptRuntime cell) ∧
    (analyze_watch_history c3zero [⟨some "zero", some "2020-01-01"⟩]
        none).found_entries = [] := by
  refine ⟨fun cell => ?_, rfl⟩
  cases cell with
  | none => rfl
  | some s =>
    have hlx : pyLower "x" = "x" := rfl
    have hfp : List.find? (fun r => pyLower r.primaryTitle == "x")
        [(⟨"t1", "x", "y", some s⟩ : MovieRow)] =
        some ⟨"t1", "x", "y", some s⟩ := rfl
    have hfo : List.find? (fun r => pyLower r.originalTitle == "x")
        [(⟨"t1", "x", "y", some s⟩ : MovieRow)] = none := rfl
    by_cases hs : pyStrip s = "" ∨ pyStrip s = "\\N" ∨ pyStrip s = "N/A"
    · have ha : acceptRuntime (some s) = none := by
        simp [acceptRuntime, hs]
      rw [ha]
      simp [find_runtime_chunked, chunksOf, chunksOfGo, primaryPassChunk,
        originalPassChunk, altPassChunk, List.findSome?, hlx, hfp, hfo, hs, ha]
    · have ha : acceptRuntime (some s) = pyIntFloat s := by
        simp [acceptRuntime, hs]
      rw [ha]
      cases hp : pyIntFloat s with
      | none =>
        simp [find_runtime_chunked, chunksOf, chunksOfGo, primaryPassChunk,
          originalPassChunk, altPassChunk, List.findSome?, hlx, hfp, hfo, hs,
          ha, hp]
      | some r =>
        simp [find_runtime_chunked, chunksOf, chunksOfGo, primaryPassChunk,
          originalPassChunk, altPassChunk, List.findSome?, hlx, hfp, hfo, hs,
          ha, hp]

/-- C3 witness: the amended characterization applied to the sentinel cell
`\N` and to the negative cell "-5". -/
theorem c3_witness :
    (find_runtime_chunked ⟨10000, true, .ok [⟨"t1", "x", "y", some "\\N"⟩],
      .ok []⟩ ["x"]).1 = none ∧
    (find_runtime_chunked ⟨10000, true, .ok [⟨"t1", "x", "y", some "-5"⟩],
      .ok []⟩ ["x"]).1 = some (-5) :=
  ⟨c3_amended.1 (some "\\N"), c3_amended.1 (some "-5")⟩

/-- C9 witness: the amended theorem applied to a history with no
title-like column. -/
theorem c9_witness :
    title_column_check ["Date", "Views"] =
      .error "CSV must contain a title column. Found columns: ['Date', 'Views']" :=
  (c9_amended ["Date", "Views"]).2 (by decide)

end Flixmeter
